import Mathlib

set_option maxHeartbeats 1000000

/-!
Shallow embedding of the Zustand application store of the church-helper-desktop
repository (src/src/stores/appStore.ts, plus the interval-commit handler of
src/src/pages/Settings.tsx). Pure state transitions are modelled as Lean
functions from the pre-state (and explicit oracles for the outcomes of the
Tauri backend commands) to the post-state together with a record of the
commands the action issued. JavaScript numbers that can be undefined or NaN
are modelled as Option Int; backend errors are modelled as the message string
the store would extract from them. The store is taken to be quiescent during a
single action: no unrelated event listener fires between the awaits of one
action.
-/

/-- Status of a job in the activeDownloads map, from ActiveDownload.status. -/
inductive DStatus where
  | pending
  | downloading
  | paused
  | completed
  | error
  deriving DecidableEq, Repr

/-- Integrity verdict attached to a completed download. -/
inductive Integrity where
  | verified
  | mismatch
  | unknown
  deriving DecidableEq, Repr

/-- Download admission mode from AppConfig. -/
inductive DownloadMode where
  | queue
  | parallel
  deriving DecidableEq, Repr

/-- One entry of the activeDownloads map. JavaScript objects are open records,
so every field that any version of the store may leave undefined is an Option
with none for undefined. -/
structure ActiveDownload where
  progress : Option Int := none
  status : DStatus
  error : Option String := none
  integrity : Option Integrity := none
  path : Option String := none
  hash : Option String := none
  currentBytes : Option Int := none
  totalBytes : Option Int := none
  queuePosition : Option Int := none
  startTime : Option Int := none
  deriving DecidableEq, Repr

/-- The activeDownloads map, a JavaScript object keyed by resource id,
modelled as an association list read through JobMap.lookup. -/
abbrev JobMap := List (Nat × ActiveDownload)

/-- First binding of the given id, none when the object has no such key. -/
def JobMap.lookup : JobMap → Nat → Option ActiveDownload
  | [], _ => none
  | (k, v) :: rest, i => if k = i then some v else JobMap.lookup rest i

/-- Removal of a key, as done by the destructuring in cancelDownload. -/
def JobMap.erase : JobMap → Nat → JobMap
  | [], _ => []
  | (k, v) :: rest, i =>
      if k = i then JobMap.erase rest i else (k, v) :: JobMap.erase rest i

/-- Functional update of a key, as done by the spread plus computed key. -/
def JobMap.insert (m : JobMap) (i : Nat) (v : ActiveDownload) : JobMap :=
  (i, v) :: JobMap.erase m i

/-- Resource descriptor from src/src/types/index.ts. -/
structure Resource where
  id : Nat
  category : String
  title : String
  description : Option String := none
  download_url : String
  thumbnail_url : Option String := none
  file_type : Option String := none
  checksum : Option String := none
  is_active : Bool
  created_at : String
  deriving DecidableEq, Repr

/-- Week identifier from src/src/types/index.ts. -/
structure WeekIdentifier where
  year : Int
  week_number : Int
  deriving DecidableEq, Repr

/-- Application configuration, the union of the fields read by the store and
by the Settings page. -/
structure AppConfig where
  work_directory : Option String := none
  polling_enabled : Bool
  polling_interval_minutes : Int
  retention_days : Option Int := none
  auto_download_categories : List String := []
  download_mode : DownloadMode := DownloadMode.queue
  prefer_optimized : Bool := true
  deriving DecidableEq, Repr

/-- Read-only status projection from src/src/types/index.ts. -/
structure AppStatus where
  polling_active : Bool
  last_poll_time : Option String := none
  total_resources : Int
  current_week : Option WeekIdentifier := none
  deriving DecidableEq, Repr

/-- Response of the force poll command. -/
structure ResourceListResponse where
  count : Int
  resources : List Resource
  deriving DecidableEq, Repr

/-- Derived summary counts. -/
structure ResourceSummary where
  total : Int
  downloaded : Int
  active : Int
  queued : Int
  deriving DecidableEq, Repr

/-- The Zustand store state of appStore.ts. -/
structure AppState where
  config : Option AppConfig := none
  status : Option AppStatus := none
  resources : List Resource := []
  activeDownloads : JobMap := []
  summary : Option ResourceSummary := none
  archivedWeeks : List WeekIdentifier := []
  isLoading : Bool := true
  error : Option String := none
  deriving DecidableEq, Repr

/-- JavaScript or-default on a possibly undefined number: undefined and 0 are
falsy and give the default. -/
def jsNumOr (x : Option Int) (dflt : Int) : Int :=
  match x with
  | some v => if v = 0 then dflt else v
  | none => dflt

/-- Payload of the download-progress event. -/
structure ProgressPayload where
  id : Nat
  progress : Int
  current_bytes : Option Int := none
  total_bytes : Option Int := none
  deriving DecidableEq, Repr

/-- Entry written by the download-progress listener over the current entry. -/
def progressEntry (cur : ActiveDownload) (p : ProgressPayload) (now : Int) : ActiveDownload :=
  { cur with progress := some p.progress, currentBytes := p.current_bytes,
             totalBytes := p.total_bytes, startTime := some (jsNumOr cur.startTime now) }

/-- Listener for download-progress: ignores ids without an entry and entries
not currently downloading, otherwise rewrites progress, byte counts and the
start time of exactly that entry. The parameter now stands for Date.now. -/
def downloadProgressHandler (p : ProgressPayload) (now : Int) (s : AppState) : AppState :=
  match JobMap.lookup s.activeDownloads p.id with
  | none => s
  | some cur =>
      if cur.status = DStatus.downloading then
        { s with activeDownloads :=
            JobMap.insert s.activeDownloads p.id (progressEntry cur p now) }
      else s

/-- Fresh entry the download-failed listener adds when the id is unknown. -/
def failedFreshEntry (errMsg : String) : ActiveDownload :=
  { progress := some 0, status := DStatus.error, error := some errMsg }

/-- Entry the download-failed listener writes over an existing entry. -/
def failedOverEntry (cur : ActiveDownload) (errMsg : String) : ActiveDownload :=
  { cur with status := DStatus.error, error := some errMsg }

/-- Listener for download-failed: with no existing entry it adds a fresh error
entry to show the error, otherwise it rewrites the existing entry to error. -/
def downloadFailedHandler (resourceId : Nat) (errMsg : String) (s : AppState) : AppState :=
  match JobMap.lookup s.activeDownloads resourceId with
  | none =>
      { s with activeDownloads :=
          JobMap.insert s.activeDownloads resourceId (failedFreshEntry errMsg) }
  | some cur =>
      { s with activeDownloads :=
          JobMap.insert s.activeDownloads resourceId (failedOverEntry cur errMsg) }

/-- Result of a store action that may issue the download_resource command. -/
structure StartEffect where
  state : AppState
  issuedDownload : Bool
  deriving DecidableEq, Repr

/-- startDownload of the current store: no-op when the entry is already
downloading, otherwise marks the entry downloading, issues download_resource
with the given backend outcome, and marks the entry error on failure. -/
def startDownload (r : Resource) (backend : Except String Unit) (s : AppState) : StartEffect :=
  if (JobMap.lookup s.activeDownloads r.id).map ActiveDownload.status
      = some DStatus.downloading then
    { state := s, issuedDownload := false }
  else
    let marked : ActiveDownload :=
      { progress := some 0, status := DStatus.downloading, error := none }
    let s1 : AppState :=
      { s with activeDownloads := JobMap.insert s.activeDownloads r.id marked }
    match backend with
    | Except.ok _ => { state := s1, issuedDownload := true }
    | Except.error msg =>
        let failed : ActiveDownload :=
          { progress := some 0, status := DStatus.error, error := some msg }
        { state :=
            { s1 with activeDownloads := JobMap.insert s1.activeDownloads r.id failed }
        , issuedDownload := true }

/-- resumeDownload of the current store: its body just calls startDownload. -/
def resumeDownload (r : Resource) (backend : Except String Unit) (s : AppState) : StartEffect :=
  startDownload r backend s

/-- Observable outcome of the three-attempt retry loop shared by pauseDownload
and cancelDownload: how many times the backend command was invoked, the delays
inserted between consecutive attempts, whether the final failure was logged to
the console, and whether any failure was rethrown to the caller. -/
structure RetryOutcome where
  calls : Nat
  delaysMs : List Nat
  loggedError : Bool
  threw : Bool
  deriving DecidableEq, Repr

/-- The retry loop body: for attempt from 0 while attempt is below 3, invoke
the command; return on success; on failure wait 50 milliseconds when attempt
is below 2, otherwise log the error to the console. The backend oracle gives
the success of each attempt. -/
def retryInvokeAux (backend : Nat → Bool) : Nat → Nat → RetryOutcome
  | 0, _ => { calls := 0, delaysMs := [], loggedError := false, threw := false }
  | fuel + 1, attempt =>
      if backend attempt then
        { calls := 1, delaysMs := [], loggedError := false, threw := false }
      else if attempt < 2 then
        let rest := retryInvokeAux backend fuel (attempt + 1)
        { calls := rest.calls + 1, delaysMs := 50 :: rest.delaysMs
        , loggedError := rest.loggedError, threw := rest.threw }
      else
        { calls := 1, delaysMs := [], loggedError := true, threw := false }

/-- The full retry loop with its bound of 3 attempts. -/
def retryInvoke (backend : Nat → Bool) : RetryOutcome :=
  retryInvokeAux backend 3 0

/-- The entry written by pauseDownload: the spread of the possibly undefined
current entry with status paused. -/
def pausedEntry : Option ActiveDownload → ActiveDownload
  | some d => { d with status := DStatus.paused }
  | none => { status := DStatus.paused }

/-- Result of pauseDownload or cancelDownload: the new state and the outcome
of the bounded retry of the backend command. -/
structure CommandEffect where
  state : AppState
  outcome : RetryOutcome
  deriving DecidableEq, Repr

/-- pauseDownload of the current store: marks the entry paused immediately,
then retries the pause_download command up to three times. -/
def pauseDownload (resourceId : Nat) (backend : Nat → Bool) (s : AppState) : CommandEffect :=
  let entry : ActiveDownload := pausedEntry (JobMap.lookup s.activeDownloads resourceId)
  { state := { s with activeDownloads := JobMap.insert s.activeDownloads resourceId entry }
  , outcome := retryInvoke backend }

/-- cancelDownload of the current store: removes the entry immediately, then
retries the cancel_download command up to three times. -/
def cancelDownload (resourceId : Nat) (backend : Nat → Bool) (s : AppState) : CommandEffect :=
  { state := { s with activeDownloads := JobMap.erase s.activeDownloads resourceId }
  , outcome := retryInvoke backend }

/-- forcePoll of the current store, with oracles for the force_poll and the
subsequent get_status backend calls. -/
def forcePoll (pollBackend : Except String ResourceListResponse)
    (statusBackend : Except String AppStatus) (s : AppState) : AppState :=
  let s1 : AppState := { s with isLoading := true }
  match pollBackend with
  | Except.error e =>
      { s1 with error := some ("Manual poll failed: " ++ e), isLoading := false }
  | Except.ok resp =>
      match statusBackend with
      | Except.error e =>
          { s1 with error := some ("Manual poll failed: " ++ e), isLoading := false }
      | Except.ok st =>
          { s1 with resources := resp.resources, status := some st, isLoading := false }

/-- Result object of the download_resource command in the checksum-verifying
version of the store. -/
structure DownloadResult where
  path : String
  hash : String
  deriving DecidableEq, Repr

/-- Lowercasing of a string, character by character, modelling the JavaScript
toLowerCase call on the hash and checksum strings. -/
def strToLower (sVal : String) : String :=
  String.mk (sVal.data.map Char.toLower)

/-- Removal of leading whitespace characters from a character list. -/
def dropLeadingWs : List Char → List Char
  | [] => []
  | c :: rest => if c.isWhitespace then dropLeadingWs rest else c :: rest

/-- Removal of leading and trailing whitespace, modelling the JavaScript trim
call on the declared checksum. -/
def strTrim (sVal : String) : String :=
  String.mk ((dropLeadingWs (dropLeadingWs sVal.data).reverse).reverse)

/-- Test that the first character list starts with the second. -/
def charsStartWith (needle hay : List Char) : Bool :=
  match needle, hay with
  | [], _ => true
  | _ :: _, [] => false
  | a :: as, b :: bs => a = b && charsStartWith as bs

/-- Test that the first character list occurs inside the second. -/
def charsContain (needle hay : List Char) : Bool :=
  match hay with
  | [] => needle.isEmpty
  | _ :: rest => charsStartWith needle hay || charsContain needle rest

/-- JavaScript substring containment, as used for the cancelled check. -/
def strIncludes (hay needle : String) : Bool :=
  charsContain needle.data hay.data

/-- The truthiness test of the source on the declared checksum: the checksum
must be present, a nonempty string, and nonempty after trimming whitespace. -/
def checksumDeclared (c : Option String) : Bool :=
  match c with
  | none => false
  | some cVal => cVal ≠ "" && strTrim cVal ≠ ""

/-- Integrity computed on a successful download: with a declared checksum the
backend hash is compared case-insensitively, otherwise the sentinel hash of a
shortcut link counts as verified and anything else stays unknown. -/
def integrityOf (r : Resource) (resultHash : String) : Integrity :=
  if checksumDeclared r.checksum then
    if strToLower resultHash = strToLower (r.checksum.getD "") then Integrity.verified
    else Integrity.mismatch
  else if resultHash = "youtube-shortcut" then Integrity.verified
  else Integrity.unknown

namespace V2

/-- Initial progress preserved on resume: the possibly undefined previous
progress with both undefined and 0 collapsing to 0. -/
def initialProgress (cur : Option ActiveDownload) : Int :=
  match cur with
  | none => 0
  | some d => jsNumOr d.progress 0

/-- The completed entry written after a successful backend call. -/
def completedEntry (r : Resource) (result : DownloadResult) : ActiveDownload :=
  { progress := some 100, status := DStatus.completed
  , integrity := some (integrityOf r result.hash)
  , path := some result.path, hash := some result.hash }

/-- startDownload of the checksum-verifying version of the store: no-op when
already downloading, otherwise marks the entry downloading with the preserved
progress, issues download_resource, and on success writes the completed entry
with the computed integrity; on a failure whose message mentions cancelled it
keeps a paused entry and does nothing for a removed entry, and on any other
failure writes an error entry. -/
def startDownload (r : Resource) (backend : Except String DownloadResult)
    (s : AppState) : StartEffect :=
  if (JobMap.lookup s.activeDownloads r.id).map ActiveDownload.status
      = some DStatus.downloading then
    { state := s, issuedDownload := false }
  else
    let marked : ActiveDownload :=
      { progress := some (initialProgress (JobMap.lookup s.activeDownloads r.id))
      , status := DStatus.downloading, error := none }
    let s1 : AppState :=
      { s with activeDownloads := JobMap.insert s.activeDownloads r.id marked }
    match backend with
    | Except.ok result =>
        let sDone : AppState :=
          { s1 with activeDownloads :=
              JobMap.insert s1.activeDownloads r.id (completedEntry r result) }
        { state := sDone, issuedDownload := true }
    | Except.error msg =>
        let failed : ActiveDownload :=
          { progress := some 0, status := DStatus.error, error := some msg }
        let sErr : AppState :=
          { s1 with activeDownloads := JobMap.insert s1.activeDownloads r.id failed }
        if strIncludes (strToLower msg) "cancelled" then
          match JobMap.lookup s1.activeDownloads r.id with
          | some cur =>
              if cur.status = DStatus.paused then { state := s1, issuedDownload := true }
              else { state := sErr, issuedDownload := true }
          | none => { state := s1, issuedDownload := true }
        else { state := sErr, issuedDownload := true }

end V2

/-- A JavaScript number that may be NaN, with none standing for NaN. -/
abbrev JSNum := Option Int

/-- Observable outcome of committing the polling interval input in the
Settings page: whether the set_polling_interval command was issued, the local
input value afterwards, and whether a validation error toast was shown. -/
structure IntervalBlurResult where
  calledSetInterval : Bool
  localInterval : JSNum
  toastError : Bool
  deriving DecidableEq, Repr

/-- handleIntervalBlur of the Settings page: no-op without a config or when
the value strictly equals the config value (NaN never does); a NaN or
out-of-range value shows an error toast and resets the local input to the
config value without issuing the command; otherwise the command is issued. -/
def handleIntervalBlur (config : Option AppConfig) (localInterval : JSNum) :
    IntervalBlurResult :=
  match config with
  | none =>
      { calledSetInterval := false, localInterval := localInterval, toastError := false }
  | some cfg =>
      match localInterval with
      | none =>
          { calledSetInterval := false
          , localInterval := some cfg.polling_interval_minutes, toastError := true }
      | some v =>
          if v = cfg.polling_interval_minutes then
            { calledSetInterval := false, localInterval := some v, toastError := false }
          else if v < 1 ∨ v > 1440 then
            { calledSetInterval := false
            , localInterval := some cfg.polling_interval_minutes, toastError := true }
          else
            { calledSetInterval := true, localInterval := some v, toastError := false }

/-- Empty store state with all fields at their initial values. -/
def emptyState : AppState := {}

/-- Sample resource used by the concrete witnesses. -/
def sampleResource : Resource :=
  { id := 1, category := "bulletin", title := "Bulletin"
  , download_url := "https://example.org/b.pdf", file_type := some "pdf"
  , is_active := true, created_at := "2025-01-01" }

/-- Sample entry of a job in flight. -/
def sampleDownloading : ActiveDownload :=
  { progress := some 10, status := DStatus.downloading }

/-- Sample entry of a finished job. -/
def sampleCompleted : ActiveDownload :=
  { progress := some 100, status := DStatus.completed }

/-- Sample store state with one downloading job. -/
def sampleState : AppState := { activeDownloads := [(1, sampleDownloading)] }

/-- Sample store state with one completed job. -/
def sampleStateCompleted : AppState := { activeDownloads := [(1, sampleCompleted)] }

/-- Resource whose declared checksum is a single space: nonempty as a string
but blank after trimming. -/
def blankChecksumResource : Resource :=
  { sampleResource with id := 7, checksum := some " " }

/-- Resource with an uppercase checksum for the case-insensitive witness. -/
def checksumResource : Resource :=
  { sampleResource with id := 9, checksum := some "ABC123" }

/-- Sample valid configuration with a one hour polling interval. -/
def sampleConfig : AppConfig :=
  { polling_enabled := true, polling_interval_minutes := 60 }

/-- Sample download-progress payload aimed at job 1. -/
def sampleProgressPayload : ProgressPayload :=
  { id := 1, progress := 42, current_bytes := some 1000, total_bytes := some 2400 }

/-- Lookup after erasing the same key gives nothing. -/
theorem JobMap.lookup_erase_self (m : JobMap) (i : Nat) :
    JobMap.lookup (JobMap.erase m i) i = none := by
  induction m with
  | nil => rfl
  | cons hd tl ih =>
      obtain ⟨k, v⟩ := hd
      by_cases h : k = i <;> simp [JobMap.erase, JobMap.lookup, h, ih]

/-- Lookup after erasing a different key is unchanged. -/
theorem JobMap.lookup_erase_ne (m : JobMap) (i j : Nat) (h : j ≠ i) :
    JobMap.lookup (JobMap.erase m i) j = JobMap.lookup m j := by
  induction m with
  | nil => rfl
  | cons hd tl ih =>
      obtain ⟨k, v⟩ := hd
      by_cases hk : k = i
      · subst hk
        simp [JobMap.erase, JobMap.lookup, Ne.symm h, ih]
      · by_cases hkj : k = j <;> simp [JobMap.erase, JobMap.lookup, hk, hkj, h, ih]

/-- Lookup after inserting the same key gives the inserted value. -/
theorem JobMap.lookup_insert_self (m : JobMap) (i : Nat) (v : ActiveDownload) :
    JobMap.lookup (JobMap.insert m i v) i = some v := by
  simp [JobMap.insert, JobMap.lookup]

/-- Lookup after inserting a different key is unchanged. -/
theorem JobMap.lookup_insert_ne (m : JobMap) (i j : Nat) (v : ActiveDownload)
    (h : j ≠ i) :
    JobMap.lookup (JobMap.insert m i v) j = JobMap.lookup m j := by
  simp [JobMap.insert, JobMap.lookup, Ne.symm h, JobMap.lookup_erase_ne m i j h]

/-- C1 counterexample: after the user removes job 1 via cancelDownload, a
download-failed event for job 1 creates a fresh error entry, and after the
user pauses job 1 via pauseDownload, a download-failed event overwrites the
paused status with error. -/
theorem downloadFailed_resurrects_cex :
    (JobMap.lookup (downloadFailedHandler 1 "io error"
        (cancelDownload 1 (fun _ => true) sampleState).state).activeDownloads 1
      = some (failedFreshEntry "io error")) ∧
    ((JobMap.lookup (pauseDownload 1 (fun _ => true) sampleState).state.activeDownloads 1).map
        ActiveDownload.status = some DStatus.paused) ∧
    ((JobMap.lookup (downloadFailedHandler 1 "io error"
        (pauseDownload 1 (fun _ => true) sampleState).state).activeDownloads 1).map
        ActiveDownload.status = some DStatus.error) := by
  refine ⟨rfl, rfl, rfl⟩

/-- C1 amended: a download-failed event always records status error for its
job; for a job just removed via cancelDownload it creates a fresh error entry,
and for a job just paused via pauseDownload it overwrites the paused status
with error, keeping the remaining fields. -/
theorem downloadFailed_after_user_action (resourceId : Nat) (errMsg : String)
    (backend : Nat → Bool) (s : AppState) :
    (JobMap.lookup (downloadFailedHandler resourceId errMsg
        (cancelDownload resourceId backend s).state).activeDownloads resourceId
      = some (failedFreshEntry errMsg)) ∧
    (JobMap.lookup (downloadFailedHandler resourceId errMsg
        (pauseDownload resourceId backend s).state).activeDownloads resourceId
      = some (failedOverEntry
          (pausedEntry (JobMap.lookup s.activeDownloads resourceId)) errMsg)) := by
  constructor
  · have h := JobMap.lookup_erase_self s.activeDownloads resourceId
    simp [cancelDownload, downloadFailedHandler, h, JobMap.lookup_insert_self]
  · simp [pauseDownload, downloadFailedHandler, JobMap.lookup_insert_self]

/-- C2 counterexample: job 1 is completed, yet pauseDownload rewrites its
status to paused. -/
theorem pause_overwrites_completed_cex :
    (JobMap.lookup sampleStateCompleted.activeDownloads 1).map ActiveDownload.status
      = some DStatus.completed ∧
    (JobMap.lookup (pauseDownload 1 (fun _ => true)
        sampleStateCompleted).state.activeDownloads 1).map ActiveDownload.status
      = some DStatus.paused := by
  constructor <;> rfl

/-- C2 amended: pauseDownload unconditionally rewrites the status of an
existing job to paused, keeping its other fields; in particular a completed
job is reverted to paused, so completion is not sticky in the store. -/
theorem pauseDownload_sets_paused (resourceId : Nat) (backend : Nat → Bool)
    (s : AppState) (d : ActiveDownload)
    (h : JobMap.lookup s.activeDownloads resourceId = some d) :
    JobMap.lookup (pauseDownload resourceId backend s).state.activeDownloads resourceId
      = some { d with status := DStatus.paused } := by
  simp [pauseDownload, pausedEntry, h, JobMap.lookup_insert_self]

/-- C2 witness: the amended statement applied to the completed sample job. -/
theorem pauseDownload_sets_paused_witness :
    JobMap.lookup sampleStateCompleted.activeDownloads 1 = some sampleCompleted ∧
    JobMap.lookup (pauseDownload 1 (fun _ => true)
        sampleStateCompleted).state.activeDownloads 1
      = some { sampleCompleted with status := DStatus.paused } :=
  ⟨rfl, pauseDownload_sets_paused 1 (fun _ => true) sampleStateCompleted sampleCompleted rfl⟩

/-- C3: starting a resource whose job is already downloading is a no-op: the
state is returned unchanged and the download_resource command is not issued. -/
theorem startDownload_noop_when_downloading (r : Resource) (backend : Except String Unit)
    (s : AppState) (cur : ActiveDownload)
    (h : JobMap.lookup s.activeDownloads r.id = some cur)
    (hd : cur.status = DStatus.downloading) :
    startDownload r backend s = { state := s, issuedDownload := false } := by
  simp [startDownload, h, hd]

/-- C3 witness: starting the sample resource over its downloading job. -/
theorem startDownload_noop_witness :
    JobMap.lookup sampleState.activeDownloads sampleResource.id = some sampleDownloading ∧
    sampleDownloading.status = DStatus.downloading ∧
    startDownload sampleResource (Except.ok ()) sampleState
      = { state := sampleState, issuedDownload := false } :=
  ⟨rfl, rfl, startDownload_noop_when_downloading sampleResource (Except.ok ())
      sampleState sampleDownloading rfl rfl⟩

/-- C4: after cancelDownload the job map holds no entry for the id, whatever
the prior status of the job and whatever the backend command outcomes. -/
theorem cancelDownload_removes_job (resourceId : Nat) (backend : Nat → Bool)
    (s : AppState) :
    JobMap.lookup (cancelDownload resourceId backend s).state.activeDownloads resourceId
      = none := by
  simp [cancelDownload, JobMap.lookup_erase_self]

/-- C5 counterexample: resource 7 declares the nonempty checksum consisting of
one space; a successful download hashing to abc, which differs from that
checksum case-insensitively, is left with integrity unknown instead of the
mismatch the claim requires. -/
theorem integrity_blank_checksum_cex :
    blankChecksumResource.checksum = some " " ∧ (" " : String) ≠ "" ∧
    strToLower "abc" ≠ strToLower " " ∧
    (JobMap.lookup (V2.startDownload blankChecksumResource
        (Except.ok { path := "p", hash := "abc" })
        emptyState).state.activeDownloads 7).map ActiveDownload.integrity
      = some (some Integrity.unknown) := by
  refine ⟨rfl, by decide, by decide, rfl⟩

/-- C5 amended: for a resource whose declared checksum is nonempty after
trimming whitespace, a successful backend call leaves the completed entry with
integrity verified exactly when the returned hash equals the checksum
case-insensitively and mismatch otherwise; with no declared checksum the
shortcut sentinel hash yields verified. -/
theorem startDownloadV2_integrity (r : Resource) (result : DownloadResult) (s : AppState)
    (hnd : (JobMap.lookup s.activeDownloads r.id).map ActiveDownload.status
            ≠ some DStatus.downloading) :
    (JobMap.lookup (V2.startDownload r (Except.ok result) s).state.activeDownloads r.id
        = some (V2.completedEntry r result)) ∧
    (∀ c, r.checksum = some c → strTrim c ≠ "" →
        integrityOf r result.hash
          = if strToLower result.hash = strToLower c then Integrity.verified
            else Integrity.mismatch) ∧
    (r.checksum = none → result.hash = "youtube-shortcut" →
        integrityOf r result.hash = Integrity.verified) := by
  refine ⟨?_, ?_, ?_⟩
  · simp [V2.startDownload, hnd, JobMap.lookup_insert_self]
  · intro c hc htrim
    have hc0 : c ≠ "" := by
      intro he
      subst he
      exact htrim (by decide)
    simp [integrityOf, checksumDeclared, hc, hc0, htrim]
  · intro hnone hsc
    simp [integrityOf, checksumDeclared, hnone, hsc]

/-- C5 witness: a resource with checksum ABC123 downloaded to a file hashing
to abc123 resolves to verified. -/
theorem startDownloadV2_integrity_witness :
    ((JobMap.lookup emptyState.activeDownloads checksumResource.id).map
        ActiveDownload.status ≠ some DStatus.downloading) ∧
    (JobMap.lookup (V2.startDownload checksumResource
        (Except.ok { path := "p", hash := "abc123" })
        emptyState).state.activeDownloads checksumResource.id
      = some (V2.completedEntry checksumResource { path := "p", hash := "abc123" })) ∧
    integrityOf checksumResource "abc123" = Integrity.verified := by
  have h := startDownloadV2_integrity checksumResource
    { path := "p", hash := "abc123" } emptyState (by decide)
  exact ⟨by decide, h.1, (h.2.1 "ABC123" rfl (by decide)).trans (by decide)⟩

/-- C6 counterexample: with every attempt failing, pauseDownload and
cancelDownload invoke the backend three times and log the final failure but
rethrow nothing to the caller, so the failure is not surfaced. -/
theorem retry_failure_not_surfaced_cex :
    (pauseDownload 1 (fun _ => false) sampleState).outcome
      = { calls := 3, delaysMs := [50, 50], loggedError := true, threw := false } ∧
    (cancelDownload 1 (fun _ => false) sampleState).outcome
      = { calls := 3, delaysMs := [50, 50], loggedError := true, threw := false } := by
  constructor <;> rfl

/-- C6 amended: pauseDownload and cancelDownload invoke their backend command
at most 3 times, stop at the first successful attempt, insert a fixed 50
millisecond delay between consecutive attempts, and when all 3 attempts fail
they log the failure to the console without propagating it to the caller. -/
theorem pause_cancel_bounded_retry (resourceId : Nat) (backend : Nat → Bool)
    (s : AppState) :
    (pauseDownload resourceId backend s).outcome = retryInvoke backend ∧
    (cancelDownload resourceId backend s).outcome = retryInvoke backend ∧
    (retryInvoke backend).calls ≤ 3 ∧
    (backend 0 = true → retryInvoke backend
        = { calls := 1, delaysMs := [], loggedError := false, threw := false }) ∧
    (backend 0 = false → backend 1 = true → retryInvoke backend
        = { calls := 2, delaysMs := [50], loggedError := false, threw := false }) ∧
    (backend 0 = false → backend 1 = false → backend 2 = true → retryInvoke backend
        = { calls := 3, delaysMs := [50, 50], loggedError := false, threw := false }) ∧
    (backend 0 = false → backend 1 = false → backend 2 = false → retryInvoke backend
        = { calls := 3, delaysMs := [50, 50], loggedError := true, threw := false }) := by
  refine ⟨rfl, rfl, ?_, ?_, ?_, ?_, ?_⟩ <;>
    cases h0 : backend 0 <;> cases h1 : backend 1 <;> cases h2 : backend 2 <;>
      simp [retryInvoke, retryInvokeAux, h0, h1, h2]

/-- C6 witness: the amended statement applied to an always failing backend. -/
theorem pause_cancel_bounded_retry_witness :
    (pauseDownload 2 (fun _ => false) sampleState).outcome = retryInvoke (fun _ => false) ∧
    retryInvoke (fun _ => false)
      = { calls := 3, delaysMs := [50, 50], loggedError := true, threw := false } :=
  ⟨(pause_cancel_bounded_retry 2 (fun _ => false) sampleState).1,
   (pause_cancel_bounded_retry 2 (fun _ => false) sampleState).2.2.2.2.2.2 rfl rfl rfl⟩

/-- C7: when the force_poll backend call fails, forcePoll leaves the resource
list exactly equal to its previous value and records a poll error message. -/
theorem forcePoll_failure_keeps_resources (e : String)
    (statusBackend : Except String AppStatus) (s : AppState) :
    (forcePoll (Except.error e) statusBackend s).resources = s.resources ∧
    (forcePoll (Except.error e) statusBackend s).error
      = some ("Manual poll failed: " ++ e) := by
  constructor <;> rfl

/-- C8: committing a NaN or out-of-range polling interval issues no
set_polling_interval command, shows the validation toast, and resets the local
input to the prior valid config value, so the persisted interval stays as it
was. -/
theorem handleIntervalBlur_rejects_invalid (cfg : AppConfig) (v : JSNum)
    (hlo : 1 ≤ cfg.polling_interval_minutes) (hhi : cfg.polling_interval_minutes ≤ 1440)
    (hbad : v = none ∨ ∃ n, v = some n ∧ (n < 1 ∨ 1440 < n)) :
    handleIntervalBlur (some cfg) v
      = { calledSetInterval := false
        , localInterval := some cfg.polling_interval_minutes, toastError := true } := by
  rcases hbad with h | ⟨n, hn, hr⟩
  · subst h
    rfl
  · subst hn
    have hne : ¬(n = cfg.polling_interval_minutes) := by omega
    show (if n = cfg.polling_interval_minutes then _
          else if n < 1 ∨ n > 1440 then _ else _) = _
    rw [if_neg hne, if_pos hr]

/-- C8 witness: committing the out-of-range value 2000 against a config whose
interval is 60. -/
theorem handleIntervalBlur_rejects_invalid_witness :
    (1 : Int) ≤ sampleConfig.polling_interval_minutes ∧
    sampleConfig.polling_interval_minutes ≤ 1440 ∧
    handleIntervalBlur (some sampleConfig) (some 2000)
      = { calledSetInterval := false, localInterval := some 60, toastError := true } := by
  refine ⟨by decide, by decide, ?_⟩
  exact handleIntervalBlur_rejects_invalid sampleConfig (some 2000) (by decide) (by decide)
    (Or.inr ⟨2000, rfl, Or.inr (by decide)⟩)

/-- C9: resumeDownload performs exactly the state transition of startDownload
on every resource, backend outcome and store state. -/
theorem resumeDownload_eq_startDownload (r : Resource) (backend : Except String Unit)
    (s : AppState) : resumeDownload r backend s = startDownload r backend s := rfl

/-- C10: a download-progress event leaves the whole state unchanged when its
id has no entry or the entry is not downloading, and otherwise changes only
the activeDownloads map, rewriting exactly the targeted entry to its progress
update while every other id keeps its binding. -/
theorem downloadProgress_frame (p : ProgressPayload) (now : Int) (s : AppState) :
    (JobMap.lookup s.activeDownloads p.id = none → downloadProgressHandler p now s = s) ∧
    (∀ cur, JobMap.lookup s.activeDownloads p.id = some cur →
      (cur.status ≠ DStatus.downloading → downloadProgressHandler p now s = s) ∧
      (cur.status = DStatus.downloading →
        downloadProgressHandler p now s
          = { s with activeDownloads :=
                JobMap.insert s.activeDownloads p.id (progressEntry cur p now) } ∧
        (∀ j, j ≠ p.id →
          JobMap.lookup (downloadProgressHandler p now s).activeDownloads j
            = JobMap.lookup s.activeDownloads j))) := by
  refine ⟨?_, ?_⟩
  · intro h
    simp [downloadProgressHandler, h]
  · intro cur hc
    refine ⟨?_, ?_⟩
    · intro hne
      simp [downloadProgressHandler, hc, hne]
    · intro hd
      have heq : downloadProgressHandler p now s
          = { s with activeDownloads :=
                JobMap.insert s.activeDownloads p.id (progressEntry cur p now) } := by
        simp [downloadProgressHandler, hc, hd]
      refine ⟨heq, ?_⟩
      intro j hj
      rw [heq]
      exact JobMap.lookup_insert_ne _ _ _ _ hj

/-- C10 witness: the progress update of the downloading sample job. -/
theorem downloadProgress_frame_witness :
    JobMap.lookup sampleState.activeDownloads sampleProgressPayload.id
      = some sampleDownloading ∧
    downloadProgressHandler sampleProgressPayload 777 sampleState
      = { sampleState with
          activeDownloads := JobMap.insert sampleState.activeDownloads
            sampleProgressPayload.id (progressEntry sampleDownloading sampleProgressPayload 777) } :=
  ⟨rfl, (((downloadProgress_frame sampleProgressPayload 777 sampleState).2
      sampleDownloading rfl).2 rfl).1⟩
